import Mathlib

/-!
Verification of the EffectorP 1.0 pipeline (`Scripts/EffectorP.py`).

The script drives two external tools (EMBOSS `pepstats` and a WEKA
Naive Bayes classifier) over a FASTA file of proteins and renders the
predictions.  The helper module `functions` is not part of the sources
at hand; every definition taken from it is modelled from the design
specification and marked as such in its doc comment.  Everything else
is translated directly from `EffectorP.py`.
-/

/-- Feature vector extracted from the pepstats report for one protein.
The individual attribute values are never inspected by the pipeline
control flow, only carried along. -/
abbrev Stats := List ℚ

/-- A parsed prediction for one protein, keyed back to the original
FASTA identifier (spec §3, Prediction Record). -/
structure Prediction where
  originalId : String
  sequence : String
  label : String
  prob : ℚ
deriving Repr, DecidableEq

/-- Which of the child's stdout/stderr streams `subprocess.Popen` was
asked to pipe back to the parent.  `run_pepstats` (line 94) passes no
stream arguments, `run_weka` (line 139) redirects stdout to a file
handle; neither uses `subprocess.PIPE`. -/
structure SpawnCfg where
  stdoutPipe : Bool
  stderrPipe : Bool
deriving Repr, DecidableEq

/-- Spawn configuration of `Popen(ParamList, shell=False)` in
`run_pepstats` (EffectorP.py line 94): no pipes. -/
def pepstatsSpawn : SpawnCfg := ⟨false, false⟩

/-- Spawn configuration of `Popen(ParamList, shell=False, stdout=out)` in
`run_weka` (EffectorP.py line 139): stdout goes to a file, not a pipe;
stderr is inherited. -/
def wekaSpawn : SpawnCfg := ⟨false, false⟩

/-- Python `Process.communicate()` called after the process has already
exited (lines 96 and 141): it returns the captured data for each stream
that was opened as a pipe and `None` for every other stream. -/
def communicate (cfg : SpawnCfg) (childOut childErr : String) :
    Option String × Option String :=
  (if cfg.stdoutPipe then some childOut else none,
   if cfg.stderrPipe then some childErr else none)

/-- Python truthiness of an optional string: `None` and the empty
string are falsy. -/
def truthy (o : Option String) : Bool :=
  match o with
  | none => false
  | some s => s ≠ ""

/-- Outcome of the `try`-body shared by the two adapters
(EffectorP.py lines 98-103 and 143-148). -/
inductive TryOutcome where
  | success : TryOutcome
  | exn : Nat → TryOutcome
  | sysExit : TryOutcome
deriving Repr, DecidableEq

/-- The post-wait checks of both adapters (lines 98-103 / 143-148):
`if Process.returncode: raise Exception(...)`, then
`if cstdout: pass elif cstderr: sys.exit(...)`. -/
def checkProcess (rc : Nat) (cstdout cstderr : Option String) : TryOutcome :=
  if rc != 0 then TryOutcome.exn rc
  else if truthy cstdout then TryOutcome.success
  else if truthy cstderr then TryOutcome.sysExit
  else TryOutcome.success

/-- A fatal run termination: the exit status passed to `sys.exit` and
the diagnostic lines printed on the way out. -/
structure Fatal where
  exitCode : Nat
  diag : List String
deriving Repr, DecidableEq

/-- One external-tool adapter call (lines 93-107 for pepstats, 138-152
for WEKA): spawn, wait, communicate, check; any exception raised in the
`try` body — including the `SystemExit` of the `elif cstderr` branch —
is caught by the bare `except:`, which prints
`"Error calling <tool>: <e>"` and calls `sys.exit(1)`.  A launch
failure (`OSError` from `Popen`) takes the same `except:` path. -/
def adapterRun (tool : String) (launches : Bool) (rc : Nat)
    (spawn : SpawnCfg) (childOut childErr : String) : Except Fatal Unit :=
  if launches then
    match checkProcess rc (communicate spawn childOut childErr).1
        (communicate spawn childOut childErr).2 with
    | TryOutcome.success => Except.ok ()
    | TryOutcome.exn r =>
        Except.error ⟨1, ["Error calling " ++ tool ++ ": Calling " ++ tool
          ++ " returned " ++ toString r]⟩
    | TryOutcome.sysExit =>
        Except.error ⟨1, ["Error calling " ++ tool ++ ": "]⟩
  else
    Except.error ⟨1, ["Error calling " ++ tool
      ++ ": [Errno 2] No such file or directory"]⟩

/-- Modelled from the spec: `functions.write_FASTA_short_ids`
(`functions.py` is not under the sources).  Spec §4.1: surrogates are
assigned by position (a zero-padded sequential index), guaranteeing
uniqueness.  We represent a surrogate identifier directly by its
zero-based position; the constant textual prefix the tool adds is an
injective decoration and is omitted.  Returns the surrogate list for
`n` input proteins. -/
def write_FASTA_short_ids (n : Nat) : List Nat := List.range n

/-- Environment of one run: everything outside the script's control
(tool installation, file system, the two child processes' behaviour and
the content of their reports). -/
structure Env where
  wekaPathExists : Bool
  embossPathExists : Bool
  fastaReadable : Bool
  fasta : List (String × String)
  pepstatsLaunches : Bool
  pepstatsRc : Nat
  pepstatsStdout : String
  pepstatsStderr : String
  pepstatsReport : List (Nat × Stats)
  wekaLaunches : Bool
  wekaRc : Nat
  wekaStdout : String
  wekaStderr : String
  wekaLines : List (String × ℚ)
deriving Repr, DecidableEq

/-- Modelled from the spec: `functions.pepstats` (`functions.py` is not
under the sources).  Spec §4.2: parse the statistics report into a
feature vector per surrogate id; a surrogate whose record is missing
from the report is dropped rather than aborting the run. -/
def pepstats_dic (env : Env) : List (Nat × Stats) :=
  (write_FASTA_short_ids env.fasta.length).filterMap
    (fun sid => (env.pepstatsReport.lookup sid).map (fun st => (sid, st)))

/-- The surrogate positions that survived statistics extraction, in
input order. -/
def survivors (env : Env) : List Nat :=
  (List.range env.fasta.length).filter
    (fun i => (env.pepstatsReport.lookup i).isSome)

/-- Modelled from the spec: resolution of classifier output rows
(`functions.parse_weka_output`; `functions.py` is not under the
sources).  Spec §4.5: each output line correlates by row position to a
feature-table row, whose surrogate id is resolved back to the original
identifier and sequence; a row that cannot be resolved is a fatal run
error (`none`). -/
def resolveRows (fasta : List (String × String)) :
    List ((Nat × Stats) × (String × ℚ)) → Option (List Prediction)
  | [] => some []
  | p :: rest =>
    match fasta[p.1.1]? with
    | none => none
    | some r =>
      match resolveRows fasta rest with
      | none => none
      | some preds =>
          some (Prediction.mk r.1 r.2 p.2.1 p.2.2 :: preds)

/-- The predicted-effector view: the `label = "Effector"` subset sorted
by descending probability (spec §4.5, view (ii); the tie-break is the
stable one of merge sort). -/
def sortEffectors (l : List Prediction) : List Prediction :=
  l.mergeSort (fun a b => decide (b.prob ≤ a.prob))

/-- Modelled from the spec: `functions.parse_weka_output`
(`functions.py` is not under the sources).  Spec §4.5 and §7: the raw
classifier lines are correlated by row position to the feature-table
rows; desynchronization (row count mismatch) and unresolvable rows are
fatal.  Returns `(predicted_effectors, predictions)` as the Python
function does. -/
def parse_weka_output (fasta : List (String × String))
    (rows : List (Nat × Stats)) (wekaLines : List (String × ℚ)) :
    Option (List Prediction × List Prediction) :=
  if rows.length == wekaLines.length then
    match resolveRows fasta (rows.zip wekaLines) with
    | none => none
    | some preds =>
        some (sortEffectors (preds.filter (fun p => p.label == "Effector")),
          preds)
  else none

/-- The data part of the pipeline inside the temporary workspace
(EffectorP.py lines 200-201): pepstats parsing followed by WEKA output
parsing. -/
def pipelineData (env : Env) : Option (List Prediction × List Prediction) :=
  parse_weka_output env.fasta (pepstats_dic env) env.wekaLines

/-- Modelled from the spec: `functions.short_output` (`functions.py` is
not under the sources).  Spec §4.6: one tab-delimited line per
Prediction Record, columns {original_id, predicted_label,
probability}. -/
def short_output (preds : List Prediction) : List String :=
  preds.map (fun p =>
    p.originalId ++ "\t" ++ p.label ++ "\t" ++ toString p.prob)

/-- Modelled from the spec: `functions.long_output` (`functions.py` is
not under the sources).  Spec §4.6: for each predicted-effector record a
human-readable block with identifier, probability and a sequence-length
summary. -/
def long_output (origIds : List String) (effectors : List Prediction) :
    List String :=
  ("---------------------------------"
    ++ " # predicted effectors: " ++ toString effectors.length
    ++ " out of " ++ toString origIds.length) ::
  effectors.map (fun p =>
    p.originalId ++ " | Effector probability: " ++ toString p.prob
      ++ " | length: " ++ toString p.sequence.length)

/-- The effector FASTA writer (EffectorP.py lines 226-230): for each
`(effector, prob, sequence)` in `predicted_effectors`, a header line
`'>' + effector + ' | Effector probability: ' + str(prob)` followed by
the sequence line. -/
def effectorFasta (effs : List Prediction) : List String :=
  effs.flatMap (fun p =>
    [">" ++ p.originalId ++ " | Effector probability: " ++ toString p.prob,
     p.sequence])

/-- Python `with TemporaryDirectory() as d: body` (EffectorP.py line
199): the directory is created on entry and removed with all its
contents on exit of the statement, whether the body returned normally
or raised (a `sys.exit` raises `SystemExit`, which propagates through
the context manager only after cleanup).  The second component records
whether the directory still exists after the statement: it never
does. -/
def withTemporaryDirectory {α : Type} (body : Except Fatal α) :
    Except Fatal α × Bool :=
  match body with
  | Except.ok a => (Except.ok a, false)
  | Except.error f => (Except.error f, false)

/-- The command-line configuration produced by
`functions.scan_arguments` (EffectorP.py line 171). -/
structure Config where
  fastaGiven : Bool
  short_format : Bool
  output_file : Option String
  effector_output : Option String
deriving Repr, DecidableEq

/-- Observable outcome of one invocation of `main`. -/
structure RunResult where
  exitCode : Nat
  diag : List String
  reportFileLines : Option (List String)
  stdoutLines : Option (List String)
  effectorLines : Option (List String)
  workspaceCreated : Bool
  workspaceAfter : Bool
deriving Repr, DecidableEq

/-- Modelled from the spec: `functions.usage` (`functions.py` is not
under the sources).  Argument parsing and usage text are outside the
specified core (spec §1); the spec's exit-code contract treats a run
without a usable input file as fatal, so the usage path is modelled as
a fatal exit before any processing. -/
def usageRun : RunResult :=
  { exitCode := 1
    diag := ["usage"]
    reportFileLines := none
    stdoutLines := none
    effectorLines := none
    workspaceCreated := false
    workspaceAfter := false }

/-- The body of the `with TemporaryDirectory()` block (EffectorP.py
lines 199-201): `run_pepstats` then `run_weka`, each of which can
terminate the run; then the WEKA output is parsed (a desynchronized
output is an uncaught exception, which exits with status 1). -/
def pipelineRun (env : Env) : Except Fatal (List Prediction × List Prediction) :=
  match adapterRun "pepstats" env.pepstatsLaunches env.pepstatsRc
      pepstatsSpawn env.pepstatsStdout env.pepstatsStderr with
  | Except.error f => Except.error f
  | Except.ok _ =>
    match adapterRun "WEKA" env.wekaLaunches env.wekaRc
        wekaSpawn env.wekaStdout env.wekaStderr with
    | Except.error f => Except.error f
    | Except.ok _ =>
      match pipelineData env with
      | none => Except.error ⟨1,
          ["Traceback (most recent call last): parse_weka_output"]⟩
      | some d => Except.ok d

/-- `main` (EffectorP.py lines 162-231).  Tool discovery runs first
(lines 165-166, each exits 1 with a diagnostic if the path is absent),
then argument handling (lines 170-178), the input readability check
(lines 181-186), the pipeline inside the temporary workspace (lines
199-201) and finally output routing (lines 203-230): the report goes to
the named output file when one was given, otherwise to stdout — never
to both — and the effector FASTA is written when a path for it was
given. -/
def mainRun (cfg : Config) (env : Env) : RunResult :=
  if !env.wekaPathExists then
    { exitCode := 1
      diag := ["Path to WEKA software does not exist!"]
      reportFileLines := none
      stdoutLines := none
      effectorLines := none
      workspaceCreated := false
      workspaceAfter := false }
  else if !env.embossPathExists then
    { exitCode := 1
      diag := ["Path to EMBOSS software does not exist!"]
      reportFileLines := none
      stdoutLines := none
      effectorLines := none
      workspaceCreated := false
      workspaceAfter := false }
  else if !cfg.fastaGiven then
    usageRun
  else if !env.fastaReadable then
    { exitCode := 1
      diag := ["Unable to open FASTA file"]
      reportFileLines := none
      stdoutLines := none
      effectorLines := none
      workspaceCreated := false
      workspaceAfter := false }
  else
    match withTemporaryDirectory (pipelineRun env) with
    | (Except.error f, wsAfter) =>
      { exitCode := f.exitCode
        diag := f.diag
        reportFileLines := none
        stdoutLines := none
        effectorLines := none
        workspaceCreated := true
        workspaceAfter := wsAfter }
    | (Except.ok (predicted_effectors, predictions), wsAfter) =>
      let report :=
        if cfg.short_format then short_output predictions
        else short_output predictions
          ++ long_output (env.fasta.map Prod.fst) predicted_effectors
      let eff :=
        if cfg.effector_output.isSome then
          some (effectorFasta predicted_effectors)
        else none
      match cfg.output_file with
      | some _ =>
        { exitCode := 0
          diag := []
          reportFileLines := some report
          stdoutLines := none
          effectorLines := eff
          workspaceCreated := true
          workspaceAfter := wsAfter }
      | none =>
        { exitCode := 0
          diag := []
          reportFileLines := none
          stdoutLines := some report
          effectorLines := eff
          workspaceCreated := true
          workspaceAfter := wsAfter }

/-- The rendered report as delivered to the caller: the output file's
content when a file was requested, the stdout content otherwise. -/
def renderedReport (r : RunResult) : Option (List String) :=
  match r.reportFileLines with
  | some l => some l
  | none => r.stdoutLines

/-- All conditions under which the run reaches normal completion:
tools installed, input readable, both child processes succeed, and the
classifier output is synchronized with the feature table. -/
def pipelineOk (env : Env) : Prop :=
  env.wekaPathExists = true ∧ env.embossPathExists = true ∧
  env.fastaReadable = true ∧
  env.pepstatsLaunches = true ∧ env.pepstatsRc = 0 ∧
  env.wekaLaunches = true ∧ env.wekaRc = 0 ∧
  (pepstats_dic env).length = env.wekaLines.length

instance (env : Env) : Decidable (pipelineOk env) := by
  unfold pipelineOk
  infer_instance

/-- Whether the environment forces a fatal termination of the run
(tool not locatable, input unreadable, a child process failing, or a
desynchronized classifier output). -/
def fatalEnv (env : Env) : Bool :=
  !env.wekaPathExists || !env.embossPathExists || !env.fastaReadable ||
  !env.pepstatsLaunches || (env.pepstatsRc != 0) ||
  !env.wekaLaunches || (env.wekaRc != 0) ||
  ((pepstats_dic env).length != env.wekaLines.length)

/-- The projection applied to one zipped (feature-table row, classifier
line) pair during resolution. -/
def resolvedPred (fasta : List (String × String))
    (p : (Nat × Stats) × (String × ℚ)) : Prediction :=
  Prediction.mk (fasta.getD p.1.1 ("", "")).1 (fasta.getD p.1.1 ("", "")).2
    p.2.1 p.2.2

/-- The ordered list of all Prediction Records of a run whose external
steps succeeded. -/
def predsOf (env : Env) : List Prediction :=
  ((pepstats_dic env).zip env.wekaLines).map (resolvedPred env.fasta)

/-- The predicted-effector view of a successful run. -/
def effsOf (env : Env) : List Prediction :=
  sortEffectors ((predsOf env).filter (fun p => p.label == "Effector"))

/-- The report body of a successful run, as selected by the format
flag. -/
def reportOf (cfg : Config) (env : Env) : List String :=
  if cfg.short_format then short_output (predsOf env)
  else short_output (predsOf env)
    ++ long_output (env.fasta.map Prod.fst) (effsOf env)

lemma withTemporaryDirectory_eq {α : Type} (b : Except Fatal α) :
    withTemporaryDirectory b = (b, false) := by
  cases b <;> rfl

lemma adapterRun_pepstats_ok (tool o e : String) :
    adapterRun tool true 0 pepstatsSpawn o e = Except.ok () := rfl

lemma adapterRun_weka_ok (tool o e : String) :
    adapterRun tool true 0 wekaSpawn o e = Except.ok () := rfl

lemma adapterRun_rc_ne (tool : String) (rc : Nat) (hrc : rc ≠ 0)
    (s : SpawnCfg) (o e : String) :
    adapterRun tool true rc s o e = Except.error ⟨1,
      ["Error calling " ++ tool ++ ": Calling " ++ tool ++ " returned "
        ++ toString rc]⟩ := by
  have hb : (rc != 0) = true := by simpa using hrc
  unfold adapterRun checkProcess
  rw [hb]
  simp

lemma adapterRun_no_launch (tool : String) (rc : Nat) (s : SpawnCfg)
    (o e : String) :
    adapterRun tool false rc s o e = Except.error ⟨1,
      ["Error calling " ++ tool ++ ": [Errno 2] No such file or directory"]⟩ :=
  rfl

lemma filterMap_lookup_fst (r : List (Nat × Stats)) (l : List Nat) :
    (l.filterMap (fun sid => (r.lookup sid).map (fun st => (sid, st)))).map
        Prod.fst
      = l.filter (fun i => (r.lookup i).isSome) := by
  induction l with
  | nil => rfl
  | cons i rest ih =>
    rcases h : r.lookup i with _ | st <;>
      simp [List.filterMap_cons, List.filter_cons, h, ih]

lemma dic_map_fst (env : Env) :
    (pepstats_dic env).map Prod.fst = survivors env := by
  unfold pepstats_dic survivors write_FASTA_short_ids
  exact filterMap_lookup_fst env.pepstatsReport (List.range env.fasta.length)

lemma dic_keys_lt (env : Env) :
    ∀ p ∈ pepstats_dic env, p.1 < env.fasta.length := by
  intro p hp
  simp only [pepstats_dic, write_FASTA_short_ids, List.mem_filterMap,
    Option.map_eq_some', List.mem_range] at hp
  obtain ⟨i, hi, st, _, hpe⟩ := hp
  rw [← hpe]
  exact hi

lemma resolveRows_ok (fasta : List (String × String)) :
    ∀ l : List ((Nat × Stats) × (String × ℚ)),
    (∀ p ∈ l, p.1.1 < fasta.length) →
    resolveRows fasta l = some (l.map (resolvedPred fasta)) := by
  intro l
  induction l with
  | nil => intro _; rfl
  | cons p rest ih =>
    intro hl
    have hp : p.1.1 < fasta.length := hl p (List.mem_cons_self _ _)
    have hrest : ∀ q ∈ rest, q.1.1 < fasta.length :=
      fun q hq => hl q (List.mem_cons_of_mem _ hq)
    simp [resolveRows, ih hrest, List.getElem?_eq_getElem hp, resolvedPred]

lemma pipelineData_ok (env : Env)
    (hlen : (pepstats_dic env).length = env.wekaLines.length) :
    pipelineData env = some (effsOf env, predsOf env) := by
  have hmem : ∀ p ∈ (pepstats_dic env).zip env.wekaLines,
      p.1.1 < env.fasta.length :=
    fun p hp => dic_keys_lt env p.1 (List.of_mem_zip hp).1
  unfold pipelineData parse_weka_output
  rw [if_pos (by simpa using hlen), resolveRows_ok env.fasta _ hmem]
  rfl

lemma pipelineData_desync (env : Env)
    (hlen : (pepstats_dic env).length ≠ env.wekaLines.length) :
    pipelineData env = none := by
  unfold pipelineData parse_weka_output
  rw [if_neg (by simpa using hlen)]

lemma pipelineRun_ok (env : Env) (hok : pipelineOk env) :
    pipelineRun env = Except.ok (effsOf env, predsOf env) := by
  obtain ⟨_, _, _, hpl, hprc, hwl, hwrc, hlen⟩ := hok
  unfold pipelineRun
  rw [hpl, hprc, hwl, hwrc, adapterRun_pepstats_ok, adapterRun_weka_ok,
    pipelineData_ok env hlen]

lemma pipelineRun_pep_no_launch (env : Env)
    (hpl : env.pepstatsLaunches = false) :
    pipelineRun env = Except.error ⟨1,
      ["Error calling pepstats: [Errno 2] No such file or directory"]⟩ := by
  unfold pipelineRun
  rw [hpl, adapterRun_no_launch]
  rfl

lemma pipelineRun_pep_rc (env : Env) (hpl : env.pepstatsLaunches = true)
    (hprc : env.pepstatsRc ≠ 0) :
    pipelineRun env = Except.error ⟨1,
      ["Error calling pepstats: Calling pepstats returned "
        ++ toString env.pepstatsRc]⟩ := by
  unfold pipelineRun
  rw [hpl, adapterRun_rc_ne "pepstats" env.pepstatsRc hprc]
  rfl

lemma pipelineRun_weka_no_launch (env : Env)
    (hpl : env.pepstatsLaunches = true) (hprc : env.pepstatsRc = 0)
    (hwl : env.wekaLaunches = false) :
    pipelineRun env = Except.error ⟨1,
      ["Error calling WEKA: [Errno 2] No such file or directory"]⟩ := by
  unfold pipelineRun
  rw [hpl, hprc, adapterRun_pepstats_ok, hwl, adapterRun_no_launch]
  rfl

lemma pipelineRun_weka_rc (env : Env) (hpl : env.pepstatsLaunches = true)
    (hprc : env.pepstatsRc = 0) (hwl : env.wekaLaunches = true)
    (hwrc : env.wekaRc ≠ 0) :
    pipelineRun env = Except.error ⟨1,
      ["Error calling WEKA: Calling WEKA returned "
        ++ toString env.wekaRc]⟩ := by
  unfold pipelineRun
  rw [hpl, hprc, adapterRun_pepstats_ok, hwl,
    adapterRun_rc_ne "WEKA" env.wekaRc hwrc]
  rfl

lemma pipelineRun_desync (env : Env) (hpl : env.pepstatsLaunches = true)
    (hprc : env.pepstatsRc = 0) (hwl : env.wekaLaunches = true)
    (hwrc : env.wekaRc = 0)
    (hlen : (pepstats_dic env).length ≠ env.wekaLines.length) :
    pipelineRun env = Except.error ⟨1,
      ["Traceback (most recent call last): parse_weka_output"]⟩ := by
  unfold pipelineRun
  rw [hpl, hprc, adapterRun_pepstats_ok, hwl, hwrc, adapterRun_weka_ok,
    pipelineData_desync env hlen]

lemma mainRun_err (cfg : Config) (env : Env) (hargs : cfg.fastaGiven = true)
    (hw : env.wekaPathExists = true) (he : env.embossPathExists = true)
    (hr : env.fastaReadable = true) (f : Fatal)
    (hp : pipelineRun env = Except.error f) :
    mainRun cfg env =
      { exitCode := f.exitCode
        diag := f.diag
        reportFileLines := none
        stdoutLines := none
        effectorLines := none
        workspaceCreated := true
        workspaceAfter := false } := by
  unfold mainRun
  rw [hw, he, hargs, hr, withTemporaryDirectory_eq, hp]
  rfl

lemma mainRun_ok (cfg : Config) (env : Env) (hargs : cfg.fastaGiven = true)
    (hok : pipelineOk env) :
    mainRun cfg env =
      { exitCode := 0
        diag := []
        reportFileLines :=
          if cfg.output_file.isSome then some (reportOf cfg env) else none
        stdoutLines :=
          if cfg.output_file.isSome then none else some (reportOf cfg env)
        effectorLines :=
          if cfg.effector_output.isSome then some (effectorFasta (effsOf env))
          else none
        workspaceCreated := true
        workspaceAfter := false } := by
  have hw := hok.1
  have he := hok.2.1
  have hr := hok.2.2.1
  unfold mainRun
  rw [hw, he, hargs, hr, withTemporaryDirectory_eq, pipelineRun_ok env hok]
  rcases ho : cfg.output_file with _ | f <;> simp [ho, reportOf]

lemma mainRun_invariants (cfg : Config) (env : Env) :
    (mainRun cfg env).workspaceAfter = false ∧
    ((mainRun cfg env).reportFileLines = none ∨
      (mainRun cfg env).stdoutLines = none) := by
  unfold mainRun
  rw [withTemporaryDirectory_eq]
  cases hpr : pipelineRun env with
  | error f => split_ifs <;> simp [usageRun]
  | ok d =>
    rcases d with ⟨effs, preds⟩
    rcases ho : cfg.output_file with _ | f2 <;> split_ifs <;> simp [usageRun]

lemma short_output_predsOf (env : Env) :
    short_output (predsOf env) =
      ((survivors env).zip env.wekaLines).map (fun p =>
        (env.fasta.getD p.1 ("", "")).1 ++ "\t" ++ p.2.1 ++ "\t"
          ++ toString p.2.2) := by
  unfold short_output predsOf
  rw [List.map_map, ← dic_map_fst env, List.zip_map_left, List.map_map]
  rfl

lemma predsOf_ids (env : Env)
    (hlen : (pepstats_dic env).length = env.wekaLines.length) :
    (predsOf env).map (fun p => p.originalId)
      = (survivors env).map (fun i => (env.fasta.getD i ("", "")).1) := by
  unfold predsOf
  rw [List.map_map, ← dic_map_fst env, List.map_map]
  have hz : ((pepstats_dic env).zip env.wekaLines).map Prod.fst
      = pepstats_dic env :=
    List.map_fst_zip _ _ (le_of_eq hlen)
  calc ((pepstats_dic env).zip env.wekaLines).map
        ((fun p => p.originalId) ∘ resolvedPred env.fasta)
      = (((pepstats_dic env).zip env.wekaLines).map Prod.fst).map
          (fun q => (env.fasta.getD q.1 ("", "")).1) := by
        rw [List.map_map]; rfl
    _ = (pepstats_dic env).map
          ((fun i => (env.fasta.getD i ("", "")).1) ∘ Prod.fst) := by
        rw [hz]
        exact List.map_congr_left (fun a _ => rfl)

lemma mainRun_no_weka (cfg : Config) (env : Env)
    (hw : env.wekaPathExists = false) :
    mainRun cfg env =
      { exitCode := 1
        diag := ["Path to WEKA software does not exist!"]
        reportFileLines := none
        stdoutLines := none
        effectorLines := none
        workspaceCreated := false
        workspaceAfter := false } := by
  unfold mainRun
  rw [hw]
  rfl

lemma mainRun_no_emboss (cfg : Config) (env : Env)
    (hw : env.wekaPathExists = true) (he : env.embossPathExists = false) :
    mainRun cfg env =
      { exitCode := 1
        diag := ["Path to EMBOSS software does not exist!"]
        reportFileLines := none
        stdoutLines := none
        effectorLines := none
        workspaceCreated := false
        workspaceAfter := false } := by
  unfold mainRun
  rw [hw, he]
  rfl

lemma mainRun_unreadable (cfg : Config) (env : Env)
    (hargs : cfg.fastaGiven = true) (hw : env.wekaPathExists = true)
    (he : env.embossPathExists = true) (hr : env.fastaReadable = false) :
    mainRun cfg env =
      { exitCode := 1
        diag := ["Unable to open FASTA file"]
        reportFileLines := none
        stdoutLines := none
        effectorLines := none
        workspaceCreated := false
        workspaceAfter := false } := by
  unfold mainRun
  rw [hw, he, hargs, hr]
  rfl

/-- A three-protein demonstration run, the spec's concrete scenario:
pepstats loses protein B (position 1), the classifier labels A an
effector with probability 0.91 and C a non-effector with probability
0.12. -/
def envDemo : Env :=
  { wekaPathExists := true
    embossPathExists := true
    fastaReadable := true
    fasta := [("A", "MKVA"), ("B", "MAAB"), ("C", "MCCC")]
    pepstatsLaunches := true
    pepstatsRc := 0
    pepstatsStdout := ""
    pepstatsStderr := ""
    pepstatsReport := [(0, [1]), (2, [2])]
    wekaLaunches := true
    wekaRc := 0
    wekaStdout := ""
    wekaStderr := ""
    wekaLines := [("Effector", 91/100), ("Non-effector", 3/25)] }

/-- Short format, report to stdout, no effector file. -/
def cfgShortStdout : Config := ⟨true, true, none, none⟩

/-- Long format, report to a file, effector FASTA requested. -/
def cfgLongFile : Config :=
  ⟨true, false, some "output.txt", some "effectors.fasta"⟩

/-- The demonstration run with the WEKA process exiting non-zero. -/
def envWekaFail : Env := { envDemo with wekaRc := 2 }

/-- The demonstration run with pepstats exiting non-zero. -/
def envPepFail : Env := { envDemo with pepstatsRc := 1 }

/-- C2: for every run, whether it completes normally or aborts with a
fatal error, the temporary run workspace no longer exists after the run
ends. -/
theorem workspace_absent_after_run (cfg : Config) (env : Env) :
    (mainRun cfg env).workspaceAfter = false :=
  (mainRun_invariants cfg env).1

/-- C10: with the spawn configurations the two adapters actually use
(no stdout/stderr pipes), `communicate()` after `wait()` returns
`(None, None)`, so after a zero exit status the `elif cstderr:` branch
is unreachable and both adapters succeed. -/
theorem stderr_branch_unreachable (childOut childErr : String) :
    communicate pepstatsSpawn childOut childErr = (none, none) ∧
    communicate wekaSpawn childOut childErr = (none, none) ∧
    checkProcess 0 (communicate pepstatsSpawn childOut childErr).1
      (communicate pepstatsSpawn childOut childErr).2
      = TryOutcome.success ∧
    checkProcess 0 (communicate wekaSpawn childOut childErr).1
      (communicate wekaSpawn childOut childErr).2
      = TryOutcome.success ∧
    (∀ tool : String,
      adapterRun tool true 0 pepstatsSpawn childOut childErr
        = Except.ok ()) ∧
    (∀ tool : String,
      adapterRun tool true 0 wekaSpawn childOut childErr
        = Except.ok ()) :=
  ⟨rfl, rfl, rfl, rfl, fun _ => rfl, fun _ => rfl⟩

/-- C7 counterexample: there is no configuration and environment under
which the same run's report is delivered both to stdout and to a file —
the negation of the claim's existential part. -/
theorem report_not_delivered_to_both :
    ¬ ∃ (cfg : Config) (env : Env),
      ((mainRun cfg env).reportFileLines).isSome = true ∧
      ((mainRun cfg env).stdoutLines).isSome = true := by
  rintro ⟨cfg, env, h1, h2⟩
  rcases (mainRun_invariants cfg env).2 with h | h
  · rw [h] at h1
    simp at h1
  · rw [h] at h2
    simp at h2

/-- C7 (amended): the orchestrator routes the rendered report either to
the named output file (with nothing on stdout) or to stdout (with no
report file written), exclusively — to the file exactly when an output
path is supplied; no configuration delivers the report to both. -/
theorem report_routing_exclusive (cfg : Config) (env : Env)
    (hargs : cfg.fastaGiven = true) (hok : pipelineOk env) :
    ((mainRun cfg env).reportFileLines = none ∨
      (mainRun cfg env).stdoutLines = none) ∧
    (cfg.output_file.isSome = true →
      (mainRun cfg env).reportFileLines = some (reportOf cfg env) ∧
      (mainRun cfg env).stdoutLines = none) ∧
    (cfg.output_file = none →
      (mainRun cfg env).stdoutLines = some (reportOf cfg env) ∧
      (mainRun cfg env).reportFileLines = none) := by
  refine ⟨(mainRun_invariants cfg env).2, ?_, ?_⟩
  · intro ho
    rw [mainRun_ok cfg env hargs hok]
    simp [ho]
  · intro ho
    rw [mainRun_ok cfg env hargs hok]
    simp [ho]

theorem report_routing_exclusive_witness :
    ((mainRun cfgLongFile envDemo).reportFileLines = none ∨
      (mainRun cfgLongFile envDemo).stdoutLines = none) ∧
    (cfgLongFile.output_file.isSome = true →
      (mainRun cfgLongFile envDemo).reportFileLines
        = some (reportOf cfgLongFile envDemo) ∧
      (mainRun cfgLongFile envDemo).stdoutLines = none) ∧
    (cfgLongFile.output_file = none →
      (mainRun cfgLongFile envDemo).stdoutLines
        = some (reportOf cfgLongFile envDemo) ∧
      (mainRun cfgLongFile envDemo).reportFileLines = none) :=
  report_routing_exclusive cfgLongFile envDemo rfl (by decide)

/-- C1: in a run whose external steps succeed, the short-format report
has one tab-delimited `original_id, predicted_label, probability` line
per classified protein, ordered by the proteins' positions in the input
FASTA (`survivors` is a sublist of the input positions in input order);
proteins dropped during statistics extraction are simply absent. -/
theorem short_report_in_input_order (cfg : Config) (env : Env)
    (hargs : cfg.fastaGiven = true) (hfmt : cfg.short_format = true)
    (hok : pipelineOk env) :
    renderedReport (mainRun cfg env) =
      some (((survivors env).zip env.wekaLines).map (fun p =>
        (env.fasta.getD p.1 ("", "")).1 ++ "\t" ++ p.2.1 ++ "\t"
          ++ toString p.2.2)) ∧
    (survivors env).Sublist (List.range env.fasta.length) := by
  constructor
  · rw [mainRun_ok cfg env hargs hok]
    unfold renderedReport
    rcases ho : cfg.output_file with _ | f <;>
      simp [ho, reportOf, hfmt, short_output_predsOf]
  · exact List.filter_sublist _

theorem short_report_in_input_order_witness :
    renderedReport (mainRun cfgShortStdout envDemo) =
      some (((survivors envDemo).zip envDemo.wekaLines).map (fun p =>
        (envDemo.fasta.getD p.1 ("", "")).1 ++ "\t" ++ p.2.1 ++ "\t"
          ++ toString p.2.2)) ∧
    (survivors envDemo).Sublist (List.range envDemo.fasta.length) :=
  short_report_in_input_order cfgShortStdout envDemo rfl rfl (by decide)

/-- C9: whenever the long (non-short) format is selected, the rendered
output is always the full short-format table followed by the long
effector report — the long report is never emitted without the table —
and this holds identically for file and stdout delivery (the report
file is used exactly when an output path was configured). -/
theorem long_format_always_includes_short_table (cfg : Config) (env : Env)
    (hargs : cfg.fastaGiven = true) (hfmt : cfg.short_format = false)
    (hok : pipelineOk env) :
    renderedReport (mainRun cfg env) =
      some (short_output (predsOf env)
        ++ long_output (env.fasta.map Prod.fst) (effsOf env)) ∧
    (mainRun cfg env).reportFileLines.isSome = cfg.output_file.isSome := by
  rw [mainRun_ok cfg env hargs hok]
  unfold renderedReport
  rcases ho : cfg.output_file with _ | f <;> simp [ho, reportOf, hfmt]

theorem long_format_always_includes_short_table_witness :
    renderedReport (mainRun cfgLongFile envDemo) =
      some (short_output (predsOf envDemo)
        ++ long_output (envDemo.fasta.map Prod.fst) (effsOf envDemo)) ∧
    (mainRun cfgLongFile envDemo).reportFileLines.isSome
      = cfgLongFile.output_file.isSome :=
  long_format_always_includes_short_table cfgLongFile envDemo rfl rfl
    (by decide)

/-- C8: when an effector FASTA output path is supplied, the effector
file holds, for every predicted effector, exactly one record: the
header `'>' + original_id + ' | Effector probability: ' + probability`
followed by the protein's sequence; the records cover exactly the
Effector-labelled predictions (up to the report's probability
ordering). -/
theorem effector_fasta_export (cfg : Config) (env : Env)
    (hargs : cfg.fastaGiven = true)
    (heff : cfg.effector_output.isSome = true) (hok : pipelineOk env) :
    (mainRun cfg env).effectorLines =
      some ((effsOf env).flatMap (fun p =>
        [">" ++ p.originalId ++ " | Effector probability: "
            ++ toString p.prob,
          p.sequence])) ∧
    (effsOf env).Perm
      ((predsOf env).filter (fun p => p.label == "Effector")) := by
  constructor
  · rw [mainRun_ok cfg env hargs hok]
    simp [heff, effectorFasta]
  · exact List.mergeSort_perm _ _

theorem effector_fasta_export_witness :
    (mainRun cfgLongFile envDemo).effectorLines =
      some ((effsOf envDemo).flatMap (fun p =>
        [">" ++ p.originalId ++ " | Effector probability: "
            ++ toString p.prob,
          p.sequence])) ∧
    (effsOf envDemo).Perm
      ((predsOf envDemo).filter (fun p => p.label == "Effector")) :=
  effector_fasta_export cfgLongFile envDemo rfl rfl (by decide)

/-- C3: if the WEKA process exits with a non-zero status, the run
terminates with exit status 1, prints a diagnostic naming WEKA, and
leaves no report file, no stdout report and no effector file; the
workspace is removed. -/
theorem weka_nonzero_exit_fatal (cfg : Config) (env : Env)
    (hargs : cfg.fastaGiven = true)
    (hw : env.wekaPathExists = true) (he : env.embossPathExists = true)
    (hr : env.fastaReadable = true)
    (hpl : env.pepstatsLaunches = true) (hprc : env.pepstatsRc = 0)
    (hwl : env.wekaLaunches = true) (hwrc : env.wekaRc ≠ 0) :
    (mainRun cfg env).exitCode = 1 ∧
    (mainRun cfg env).diag
      = ["Error calling WEKA: Calling WEKA returned "
          ++ toString env.wekaRc] ∧
    (mainRun cfg env).reportFileLines = none ∧
    (mainRun cfg env).stdoutLines = none ∧
    (mainRun cfg env).effectorLines = none ∧
    (mainRun cfg env).workspaceAfter = false := by
  rw [mainRun_err cfg env hargs hw he hr _
    (pipelineRun_weka_rc env hpl hprc hwl hwrc)]
  exact ⟨rfl, rfl, rfl, rfl, rfl, rfl⟩

theorem weka_nonzero_exit_fatal_witness :
    (mainRun cfgShortStdout envWekaFail).exitCode = 1 ∧
    (mainRun cfgShortStdout envWekaFail).diag
      = ["Error calling WEKA: Calling WEKA returned "
          ++ toString envWekaFail.wekaRc] ∧
    (mainRun cfgShortStdout envWekaFail).reportFileLines = none ∧
    (mainRun cfgShortStdout envWekaFail).stdoutLines = none ∧
    (mainRun cfgShortStdout envWekaFail).effectorLines = none ∧
    (mainRun cfgShortStdout envWekaFail).workspaceAfter = false :=
  weka_nonzero_exit_fatal cfgShortStdout envWekaFail rfl rfl rfl rfl rfl rfl
    rfl (by decide)

/-- C5: if the pepstats process cannot be launched or exits with a
non-zero status, the run aborts with exit status 1 and a diagnostic
naming pepstats, produces no report on either channel and no effector
file, and the workspace is removed. -/
theorem pepstats_failure_fatal (cfg : Config) (env : Env)
    (hargs : cfg.fastaGiven = true)
    (hw : env.wekaPathExists = true) (he : env.embossPathExists = true)
    (hr : env.fastaReadable = true)
    (hfail : env.pepstatsLaunches = false ∨ env.pepstatsRc ≠ 0) :
    (mainRun cfg env).exitCode = 1 ∧
    (∃ t, (mainRun cfg env).diag = ["Error calling pepstats: " ++ t]) ∧
    (mainRun cfg env).reportFileLines = none ∧
    (mainRun cfg env).stdoutLines = none ∧
    (mainRun cfg env).effectorLines = none ∧
    (mainRun cfg env).workspaceAfter = false := by
  rcases hfail with hpl | hprc
  · rw [mainRun_err cfg env hargs hw he hr _
      (pipelineRun_pep_no_launch env hpl)]
    exact ⟨rfl, ⟨"[Errno 2] No such file or directory", rfl⟩,
      rfl, rfl, rfl, rfl⟩
  · by_cases hpl : env.pepstatsLaunches = true
    · rw [mainRun_err cfg env hargs hw he hr _
        (pipelineRun_pep_rc env hpl hprc)]
      exact ⟨rfl,
        ⟨"Calling pepstats returned " ++ toString env.pepstatsRc, rfl⟩,
        rfl, rfl, rfl, rfl⟩
    · have hpl' : env.pepstatsLaunches = false := by
        cases h : env.pepstatsLaunches
        · rfl
        · exact absurd h hpl
      rw [mainRun_err cfg env hargs hw he hr _
        (pipelineRun_pep_no_launch env hpl')]
      exact ⟨rfl, ⟨"[Errno 2] No such file or directory", rfl⟩,
        rfl, rfl, rfl, rfl⟩

theorem pepstats_failure_fatal_witness :
    (mainRun cfgShortStdout envPepFail).exitCode = 1 ∧
    (∃ t, (mainRun cfgShortStdout envPepFail).diag
      = ["Error calling pepstats: " ++ t]) ∧
    (mainRun cfgShortStdout envPepFail).reportFileLines = none ∧
    (mainRun cfgShortStdout envPepFail).stdoutLines = none ∧
    (mainRun cfgShortStdout envPepFail).effectorLines = none ∧
    (mainRun cfgShortStdout envPepFail).workspaceAfter = false :=
  pepstats_failure_fatal cfgShortStdout envPepFail rfl rfl rfl rfl
    (Or.inr (by decide))

/-- C4: a protein whose record is missing from the statistics report is
silently dropped: the run still exits 0 and renders a report, the
dropped position is not among the survivors, and the Prediction Records
are exactly the surviving proteins' original identifiers in input
order. -/
theorem missing_pepstats_record_nonfatal (cfg : Config) (env : Env)
    (k : Nat) (hargs : cfg.fastaGiven = true) (hok : pipelineOk env)
    (hk : env.pepstatsReport.lookup k = none) :
    (mainRun cfg env).exitCode = 0 ∧
    k ∉ survivors env ∧
    (predsOf env).map (fun p => p.originalId)
      = (survivors env).map (fun i => (env.fasta.getD i ("", "")).1) ∧
    (renderedReport (mainRun cfg env)).isSome = true := by
  refine ⟨?_, ?_, predsOf_ids env hok.2.2.2.2.2.2.2, ?_⟩
  · rw [mainRun_ok cfg env hargs hok]
  · intro hmem
    unfold survivors at hmem
    rw [List.mem_filter, hk] at hmem
    simp at hmem
  · rw [mainRun_ok cfg env hargs hok]
    unfold renderedReport
    rcases ho : cfg.output_file with _ | f <;> simp [ho]

theorem missing_pepstats_record_nonfatal_witness :
    (mainRun cfgShortStdout envDemo).exitCode = 0 ∧
    1 ∉ survivors envDemo ∧
    (predsOf envDemo).map (fun p => p.originalId)
      = (survivors envDemo).map
          (fun i => (envDemo.fasta.getD i ("", "")).1) ∧
    (renderedReport (mainRun cfgShortStdout envDemo)).isSome = true :=
  missing_pepstats_record_nonfatal cfgShortStdout envDemo 1 rfl (by decide)
    (by decide)

/-- C6: with a FASTA argument supplied, the process exits with code 1
exactly when the environment forces a fatal error (tool not locatable,
input file unreadable, a tool invocation failing, or a desynchronized
classifier output) and with code 0 otherwise; an unreadable input is
reported immediately, before any pipeline processing (no workspace is
ever created and the only diagnostic is the input error). -/
theorem exit_code_contract (cfg : Config) (env : Env)
    (hargs : cfg.fastaGiven = true) :
    ((mainRun cfg env).exitCode = if fatalEnv env then 1 else 0) ∧
    (env.wekaPathExists = true → env.embossPathExists = true →
      env.fastaReadable = false →
      (mainRun cfg env).workspaceCreated = false ∧
      (mainRun cfg env).diag = ["Unable to open FASTA file"]) := by
  by_cases hw : env.wekaPathExists = true
  case neg =>
    have hw' : env.wekaPathExists = false := by
      cases h : env.wekaPathExists
      · rfl
      · exact absurd h hw
    rw [mainRun_no_weka cfg env hw']
    refine ⟨?_, ?_⟩
    · have hf : fatalEnv env = true := by simp [fatalEnv, hw']
      rw [hf]; rfl
    · intro h1 _ _
      exact absurd h1 hw
  case pos =>
  by_cases he : env.embossPathExists = true
  case neg =>
    have he' : env.embossPathExists = false := by
      cases h : env.embossPathExists
      · rfl
      · exact absurd h he
    rw [mainRun_no_emboss cfg env hw he']
    refine ⟨?_, ?_⟩
    · have hf : fatalEnv env = true := by simp [fatalEnv, he']
      rw [hf]; rfl
    · intro _ h2 _
      exact absurd h2 he
  case pos =>
  by_cases hr : env.fastaReadable = true
  case neg =>
    have hr' : env.fastaReadable = false := by
      cases h : env.fastaReadable
      · rfl
      · exact absurd h hr
    rw [mainRun_unreadable cfg env hargs hw he hr']
    refine ⟨?_, ?_⟩
    · have hf : fatalEnv env = true := by simp [fatalEnv, hr']
      rw [hf]; rfl
    · intro _ _ _
      exact ⟨rfl, rfl⟩
  case pos =>
  have hnr : ¬ env.fastaReadable = false := by simp [hr]
  by_cases hpl : env.pepstatsLaunches = true
  case neg =>
    have hpl' : env.pepstatsLaunches = false := by
      cases h : env.pepstatsLaunches
      · rfl
      · exact absurd h hpl
    rw [mainRun_err cfg env hargs hw he hr _
      (pipelineRun_pep_no_launch env hpl')]
    refine ⟨?_, fun _ _ h3 => absurd h3 hnr⟩
    have hf : fatalEnv env = true := by simp [fatalEnv, hpl']
    rw [hf]; rfl
  case pos =>
  by_cases hprc : env.pepstatsRc = 0
  case neg =>
    rw [mainRun_err cfg env hargs hw he hr _
      (pipelineRun_pep_rc env hpl hprc)]
    refine ⟨?_, fun _ _ h3 => absurd h3 hnr⟩
    have hf : fatalEnv env = true := by simp [fatalEnv, hprc]
    rw [hf]; rfl
  case pos =>
  by_cases hwl : env.wekaLaunches = true
  case neg =>
    have hwl' : env.wekaLaunches = false := by
      cases h : env.wekaLaunches
      · rfl
      · exact absurd h hwl
    rw [mainRun_err cfg env hargs hw he hr _
      (pipelineRun_weka_no_launch env hpl hprc hwl')]
    refine ⟨?_, fun _ _ h3 => absurd h3 hnr⟩
    have hf : fatalEnv env = true := by simp [fatalEnv, hwl']
    rw [hf]; rfl
  case pos =>
  by_cases hwrc : env.wekaRc = 0
  case neg =>
    rw [mainRun_err cfg env hargs hw he hr _
      (pipelineRun_weka_rc env hpl hprc hwl hwrc)]
    refine ⟨?_, fun _ _ h3 => absurd h3 hnr⟩
    have hf : fatalEnv env = true := by simp [fatalEnv, hwrc]
    rw [hf]; rfl
  case pos =>
  by_cases hlen : (pepstats_dic env).length = env.wekaLines.length
  case pos =>
    have hok : pipelineOk env := ⟨hw, he, hr, hpl, hprc, hwl, hwrc, hlen⟩
    rw [mainRun_ok cfg env hargs hok]
    refine ⟨?_, fun _ _ h3 => absurd h3 hnr⟩
    have hf : fatalEnv env = false := by
      simp [fatalEnv, hw, he, hr, hpl, hprc, hwl, hwrc, hlen]
    rw [hf]; rfl
  case neg =>
    rw [mainRun_err cfg env hargs hw he hr _
      (pipelineRun_desync env hpl hprc hwl hwrc hlen)]
    refine ⟨?_, fun _ _ h3 => absurd h3 hnr⟩
    have hf : fatalEnv env = true := by simp [fatalEnv, hlen]
    rw [hf]; rfl

theorem exit_code_contract_witness :
    ((mainRun cfgShortStdout envDemo).exitCode
      = if fatalEnv envDemo then 1 else 0) ∧
    (envDemo.wekaPathExists = true → envDemo.embossPathExists = true →
      envDemo.fastaReadable = false →
      (mainRun cfgShortStdout envDemo).workspaceCreated = false ∧
      (mainRun cfgShortStdout envDemo).diag
        = ["Unable to open FASTA file"]) :=
  exit_code_contract cfgShortStdout envDemo rfl
